import Mathlib

/-!
Verification of the vnc-agent-bridge client library against its
natural-language specification.  The Python source under
`src/vnc_agent_bridge/` is shallowly embedded: pure computations become
Lean functions, stateful controllers become explicit state passing, byte
strings become `List Nat` (each entry `< 256`), Python floats become `ℚ`,
and fallible code returns `Except`/`Option`.
-/

set_option autoImplicit false

namespace VNCBridge

/-- The library's error taxonomy (`src/vnc_agent_bridge/exceptions/__init__.py`):
connection, timeout, protocol, authentication, input and state errors, plus
Python's built-in `ValueError`/`RuntimeError` raised directly by the
framebuffer code. -/
inductive PyError where
  | connectionError
  | timeoutError
  | protocolError
  | authError
  | inputError
  | stateError
  | valueError
  | runtimeError
  deriving DecidableEq, Repr

/-- Decidable equality for `Except` results, so witnesses can be checked by
evaluation. -/
instance instDecEqExcept {ε α : Type} [DecidableEq ε] [DecidableEq α] :
    DecidableEq (Except ε α)
  | .error e₁, .error e₂ =>
    if h : e₁ = e₂ then .isTrue (by rw [h]) else .isFalse (by intro he; cases he; exact h rfl)
  | .error _, .ok _ => .isFalse (by intro h; cases h)
  | .ok _, .error _ => .isFalse (by intro h; cases h)
  | .ok a₁, .ok a₂ =>
    if h : a₁ = a₂ then .isTrue (by rw [h]) else .isFalse (by intro he; cases he; exact h rfl)

/-! ## Scroll controller (`core/scroll.py`, `types/common.py`) -/

/-- `ScrollDirection` from `types/common.py` lines 51-56: an `IntEnum` with
`UP = 0` and `DOWN = 1` (the comments in `core/scroll.py` claim `UP=4`,
`DOWN=3`, but the enum says otherwise). -/
inductive ScrollDirection where
  | up
  | down
  deriving DecidableEq, Repr

/-- `ScrollDirection.value`: the `IntEnum` integer value. -/
def ScrollDirection.value : ScrollDirection → Nat
  | .up => 0
  | .down => 1

/-- One outbound RFB PointerEvent as framed by
`TCPVNCConnection.send_pointer_event` (`core/connection_tcp.py` lines
105-121): message type 5, a button mask byte and two `u16` coordinates. -/
structure PointerEvent where
  mask : Nat
  x : Nat
  y : Nat
  deriving DecidableEq, Repr

/-- `ScrollController._send_scroll_event` (`core/scroll.py` lines 120-128):
`button = direction.value`, then `send_pointer_event(0, 0, button)`. -/
def send_scroll_event (direction : ScrollDirection) : PointerEvent :=
  { mask := direction.value, x := 0, y := 0 }

/-- `ScrollController.scroll_up` (`core/scroll.py` lines 43-67).  The state
check comes first, then the negativity check, then `amount` scroll events.
The result is the list of pointer events written to the connection. -/
def scroll_up (connected : Bool) (amount : Int) : Except PyError (List PointerEvent) :=
  if connected = false then .error .stateError
  else if amount < 0 then .error .inputError
  else .ok (List.replicate amount.toNat (send_scroll_event .up))

/-- `ScrollController.scroll_down` (`core/scroll.py` lines 69-93). -/
def scroll_down (connected : Bool) (amount : Int) : Except PyError (List PointerEvent) :=
  if connected = false then .error .stateError
  else if amount < 0 then .error .inputError
  else .ok (List.replicate amount.toNat (send_scroll_event .down))

/-! ## ServerInit parsing and the facade's framebuffer config
(`core/connection_tcp.py` lines 405-418, `core/bridge.py` lines 81-104) -/

/-- `FramebufferConfig` from `types/common.py` lines 104-111. -/
structure FramebufferConfig where
  width : Nat
  height : Nat
  pixel_format : List Nat
  name : String
  deriving DecidableEq, Repr

/-- The width/height fields of the ServerInit message as the TCP handshake
reads them (`core/connection_tcp.py` lines 409-410): the first four bytes
are unpacked big-endian as two `u16` values.  The handshake reads and then
discards them; nothing stores the result. -/
def parse_server_init_dims (bytes : List Nat) : Option (Nat × Nat) :=
  match bytes with
  | b1 :: b2 :: b3 :: b4 :: _ => some (b1 * 256 + b2, b3 * 256 + b4)
  | _ => none

/-- The `FramebufferConfig` that `VNCAgentBridge.connect` constructs
(`core/bridge.py` lines 88-93): hardcoded `width=1920, height=1080`
("Default, will be updated by VNC server" according to the comment), with
an empty pixel format and the name "VNC Screen".  No code path ever
updates it from the handshake. -/
def bridge_connect_fb_config : FramebufferConfig :=
  { width := 1920, height := 1080, pixel_format := [], name := "VNC Screen" }

/-! ## VNC-DES key derivation and authentication response
(`core/connection_tcp.py` lines 420-518,
`core/connection_websocket.py` lines 615-719) -/

/-- `reverse_bits` from `_vnc_auth_response` (`core/connection_tcp.py` lines
449-454): eight iterations of `result = (result << 1) | ((byte_val >> i) & 1)`. -/
def reverse_bits (byte_val : Nat) : Nat :=
  (List.range 8).foldl (fun result i => result * 2 + (byte_val / 2 ^ i % 2)) 0

/-- The DES key derived from the password inside `_vnc_auth_response`
(`core/connection_tcp.py` lines 441-460): latin-1 bytes, truncated to 8,
each byte bit-reversed, then right-padded with `0x00` to exactly 8 bytes. -/
def vnc_des_key (password_bytes : List Nat) : List Nat :=
  let truncated := password_bytes.take 8
  let reversed := truncated.map reverse_bits
  (reversed ++ List.replicate 8 0).take 8

/-- A DES-ECB single-block primitive supplied by a host crypto library:
key bytes and an 8-byte block in, an 8-byte block out. -/
def DESPrimitive : Type := List Nat → List Nat → List Nat

/-- The 16-byte response assembled from a block primitive: the two 8-byte
challenge halves encrypted independently and concatenated
(`core/connection_tcp.py` lines 466-476). -/
def des_response (encrypt : DESPrimitive) (key challenge : List Nat) : List Nat :=
  encrypt key (challenge.take 8) ++ encrypt key ((challenge.drop 8).take 8)

/-- `TCPVNCConnection._vnc_auth_response` (`core/connection_tcp.py` lines
420-518).  The three `Option` arguments model the availability of the
pycryptodome, pyDES and cryptography DES-ECB primitives, tried in that
order; when all three imports fail the method raises `VNCProtocolError`
("DES encryption not available"). -/
def tcp_vnc_auth_response (pycryptodome pydes cryptolib : Option DESPrimitive)
    (challenge password_bytes : List Nat) : Except PyError (List Nat) :=
  let key := vnc_des_key password_bytes
  match pycryptodome with
  | some encrypt => .ok (des_response encrypt key challenge)
  | none =>
    match pydes with
    | some encrypt => .ok (des_response encrypt key challenge)
    | none =>
      match cryptolib with
      | some encrypt => .ok (des_response encrypt key challenge)
      | none => .error .protocolError

/-- `des_encrypt_block` from `WebSocketVNCConnection._vnc_auth_response`
(`core/connection_websocket.py` lines 705-713): the "final fallback", a
per-byte XOR of the block with `key[i % len(key)]` — not DES at all. -/
def des_encrypt_block (block key : List Nat) : List Nat :=
  (List.range 8).map fun i => Nat.xor (block.getD i 0) (key.getD (i % key.length) 0)

/-- `WebSocketVNCConnection._vnc_auth_response` (`core/connection_websocket.py`
lines 615-719).  Two library probes (pycryptodome, then cryptography's
TripleDES), and when both imports fail the XOR fallback `des_encrypt_block`
is used on both challenge halves; the method never raises for a missing
DES primitive. -/
def ws_vnc_auth_response (pycryptodome cryptolib : Option DESPrimitive)
    (challenge password_bytes : List Nat) : Except PyError (List Nat) :=
  let key := vnc_des_key password_bytes
  match pycryptodome with
  | some encrypt => .ok (des_response encrypt key challenge)
  | none =>
    match cryptolib with
    | some encrypt => .ok (des_response encrypt key challenge)
    | none =>
      .ok (des_encrypt_block (challenge.take 8) key ++
           des_encrypt_block ((challenge.drop 8).take 8) key)

/-- The latin-1 bytes of the password "pass": `p a s s`. -/
def pass_bytes : List Nat := [0x70, 0x61, 0x73, 0x73]

/-! ## Keyboard controller (`core/keyboard.py`) -/

/-- One outbound RFB KeyEvent as framed by
`TCPVNCConnection.send_key_event` (`core/connection_tcp.py` lines 123-139). -/
structure KeyEvent where
  keysym : Nat
  down : Bool
  deriving DecidableEq, Repr

/-- `KeyboardController.KEY_CODES` (`core/keyboard.py` lines 14-63): the
symbolic key-name table. -/
def KEY_CODES : List (String × Nat) :=
  [("left", 0xFF51), ("right", 0xFF53), ("up", 0xFF52), ("down", 0xFF54),
   ("home", 0xFF50), ("end", 0xFF57), ("pageup", 0xFF55), ("pagedown", 0xFF56),
   ("return", 0xFF0D), ("enter", 0xFF0D), ("escape", 0xFF1B), ("esc", 0xFF1B),
   ("tab", 0xFF09), ("backspace", 0xFF08), ("delete", 0xFFFF), ("del", 0xFFFF),
   ("space", 0x0020),
   ("f1", 0xFFBE), ("f2", 0xFFBF), ("f3", 0xFFC0), ("f4", 0xFFC1),
   ("f5", 0xFFC2), ("f6", 0xFFC3), ("f7", 0xFFC4), ("f8", 0xFFC5),
   ("f9", 0xFFC6), ("f10", 0xFFC7), ("f11", 0xFFC8), ("f12", 0xFFC9),
   ("shift", 0xFFE1), ("lshift", 0xFFE1), ("rshift", 0xFFE2),
   ("ctrl", 0xFFE3), ("lctrl", 0xFFE3), ("rctrl", 0xFFE4),
   ("alt", 0xFFE9), ("lalt", 0xFFE9), ("ralt", 0xFFEA),
   ("meta", 0xFFED), ("cmd", 0xFFEB), ("windows", 0xFFEB),
   ("capslock", 0xFFE5), ("numlock", 0xFF7F), ("scrolllock", 0xFF14)]

/-- A `Union[str, int]` key argument. -/
inductive KeyInput where
  | str (s : String)
  | int (n : Nat)

/-- `KeyboardController._get_keycode` (`core/keyboard.py` lines 262-283):
integers pass through; a one-character string maps to `ord(key)`
irrespective of its code point; longer strings are looked up lowercased
in `KEY_CODES`. -/
def get_keycode (key : KeyInput) : Option Nat :=
  match key with
  | .int n => some n
  | .str s =>
    match s.toList with
    | [c] => some c.toNat
    | _ => (KEY_CODES.find? (fun p => p.1 = s.toLower)).map (·.2)

/-- The per-character loop of `KeyboardController.type_text`
(`core/keyboard.py` lines 108-119): each character is resolved through
`_get_keycode`; a `None` keycode raises `VNCInputError` (with the events of
the earlier characters already sent), otherwise a key-down and a key-up
event are emitted. -/
def type_text_loop : List Char → Except PyError (List KeyEvent)
  | [] => .ok []
  | c :: rest =>
    match get_keycode (.str (String.mk [c])) with
    | none => .error .inputError
    | some k =>
      match type_text_loop rest with
      | .error e => .error e
      | .ok evs => .ok ({ keysym := k, down := true } :: { keysym := k, down := false } :: evs)

/-- `KeyboardController.type_text` (`core/keyboard.py` lines 89-121): state
check, empty-text check, then the per-character loop. -/
def type_text (connected : Bool) (text : String) : Except PyError (List KeyEvent) :=
  if connected = false then .error .stateError
  else if text.toList = [] then .error .inputError
  else type_text_loop text.toList

/-! ## Framebuffer manager (`core/framebuffer.py`) -/

/-- `FramebufferManager` state: the configured dimensions, the optional
RGBA raster (flat, row-major, 4 bytes per pixel) and the `_is_dirty` flag. -/
structure FBState where
  width : Nat
  height : Nat
  buffer : Option (List Nat)
  dirty : Bool
  deriving DecidableEq, Repr

/-- `FramebufferManager.initialize_buffer` (`core/framebuffer.py` lines
48-54): a zeroed `height × width × 4` raster, dirty flag cleared. -/
def init_buffer (width height : Nat) : FBState :=
  { width := width, height := height,
    buffer := some (List.replicate (height * width * 4) 0), dirty := false }

/-- The numpy assignment `buffer[y:y+h, x:x+w] = pixels` on the flat raster:
every byte index inside the target rectangle is replaced by the matching
byte of `pixels`, all others kept. -/
def write_rect (w_fb : Nat) (buf : List Nat) (x y w h : Nat) (pixels : List Nat) : List Nat :=
  (List.range buf.length).map fun i =>
    let row := i / (w_fb * 4)
    let col := (i % (w_fb * 4)) / 4
    let chan := i % 4
    if y ≤ row ∧ row < y + h ∧ x ≤ col ∧ col < x + w then
      pixels.getD (((row - y) * w + (col - x)) * 4 + chan) 0
    else buf.getD i 0

/-- `FramebufferManager.update_rectangle` (`core/framebuffer.py` lines
98-126): `RuntimeError` when the buffer is uninitialized, `ValueError` when
`len(pixel_data) ≠ w*h*4`; otherwise the numpy slice assignment, which
raises `ValueError` (a shape mismatch) when the rectangle leaves the raster
and writes the pixels when it fits.  The `_is_dirty` flag is never touched
here. -/
def update_rectangle (st : FBState) (x y w h : Nat) (pixel_data : List Nat) :
    Except PyError FBState :=
  match st.buffer with
  | none => .error .runtimeError
  | some buf =>
    if pixel_data.length ≠ w * h * 4 then .error .valueError
    else if x + w ≤ st.width ∧ y + h ≤ st.height then
      .ok { st with buffer := some (write_rect st.width buf x y w h pixel_data) }
    else .error .valueError

/-- `FramebufferManager.process_update` (`core/framebuffer.py` lines 82-96):
apply every rectangle in order, then set `_is_dirty = True` — the flag is
set after the loop, even when the rectangle list is empty.  (The Python
code performs the buffer-is-`None` check once before the loop; checking it
at each step is equivalent because `update_rectangle` repeats the same
check and a `some` buffer stays `some`.) -/
def process_update : FBState → List (Nat × Nat × Nat × Nat × List Nat) →
    Except PyError FBState
  | st, [] =>
    match st.buffer with
    | none => .error .runtimeError
    | some _ => .ok { st with dirty := true }
  | st, (x, y, w, h, pd) :: rest =>
    match st.buffer with
    | none => .error .runtimeError
    | some _ =>
      match update_rectangle st x y w h pd with
      | .error e => .error e
      | .ok st' => process_update st' rest

/-- The `is_dirty` property (`core/framebuffer.py` lines 177-182): returns
the current flag and resets it to `False`. -/
def read_is_dirty (st : FBState) : Bool × FBState :=
  (st.dirty, { st with dirty := false })

/-! ## Video recorder (`core/video.py`) -/

/-- `VideoFrame` from `types/common.py` lines 94-100; the timestamp is a
Python float, embedded as `ℚ`; the pixel payload is kept opaque. -/
structure VideoFrame where
  timestamp : ℚ
  data : List Nat
  frame_number : Nat
  deriving DecidableEq, Repr

/-- `VideoRecorder.get_frame_rate` (`core/video.py` lines 298-321): an empty
list raises `VNCInputError`; fewer than 2 frames give `0.0`; a
non-positive timestamp span gives `0.0`; otherwise `count / span`. -/
def get_frame_rate (frames : List VideoFrame) : Except PyError ℚ :=
  match frames with
  | [] => .error .inputError
  | [_] => .ok 0
  | f :: g :: rest =>
    let total := ((g :: rest).getLastD f).timestamp - f.timestamp
    if total ≤ 0 then .ok 0
    else .ok ((f :: g :: rest).length / total)

/-- `VideoRecorder.get_duration` (`core/video.py` lines 323-338): an empty
list raises `VNCInputError`; otherwise `last.timestamp - first.timestamp`. -/
def get_duration (frames : List VideoFrame) : Except PyError ℚ :=
  match frames with
  | [] => .error .inputError
  | f :: rest => .ok (((rest).getLastD f).timestamp - f.timestamp)

/-- The `threading.Thread` construction arguments that matter to the
resource model: the `daemon` flag. -/
structure ThreadSpec where
  daemon : Bool
  deriving DecidableEq, Repr

/-- `VideoRecorder` background-recording state. -/
structure RecorderState where
  is_recording : Bool
  thread : Option ThreadSpec
  should_stop : Bool
  frames : List VideoFrame
  frame_count : Nat
  deriving DecidableEq, Repr

/-- A freshly constructed `VideoRecorder` (`core/video.py` lines 48-52). -/
def recorder_init : RecorderState :=
  { is_recording := false, thread := none, should_stop := false,
    frames := [], frame_count := 0 }

/-- `VideoRecorder.start_recording` (`core/video.py` lines 195-230): state
and input checks, then the worker thread is created with `daemon=False`
(line 228) and started. -/
def start_recording (st : RecorderState) (fps : ℚ) (connected : Bool) :
    Except PyError RecorderState :=
  if st.is_recording then .error .stateError
  else if fps ≤ 0 then .error .inputError
  else if connected = false then .error .stateError
  else .ok { st with frames := [], frame_count := 0, should_stop := false,
                     is_recording := true, thread := some { daemon := false } }

/-- `VideoRecorder.stop_recording` (`core/video.py` lines 232-251): sets the
stop flag, joins the worker with `timeout=10.0` when one exists, clears
`_is_recording` and returns a copy of the frames.  The second component of
the result is the join timeout used (`none` when no thread was joined). -/
def stop_recording (st : RecorderState) :
    Except PyError (RecorderState × List VideoFrame × Option ℚ) :=
  if st.is_recording = false then .error .stateError
  else
    let joined : Option ℚ := if st.thread.isSome then some 10 else none
    .ok ({ st with should_stop := true, is_recording := false }, st.frames, joined)

/-! ## WebSocket transport read path (`core/connection_websocket.py`
lines 562-602) -/

/-- `WebSocketVNCConnection._recv_exact`: while the buffer holds fewer than
`count` bytes, pull the next whole WebSocket frame and append it (an empty
frame means the peer closed — `VNCConnectionError`); then slice the first
`count` bytes off the buffer.  `frames` is the queue of frames the socket
will deliver; running out of frames models a blocking receive that ends in
a transport error.  The result is the returned bytes, the new buffer and
the frames not yet pulled. -/
def ws_recv_exact (count : Nat) :
    List Nat → List (List Nat) → Option (List Nat × List Nat × List (List Nat))
  | buffer, [] =>
    if count ≤ buffer.length then some (buffer.take count, buffer.drop count, [])
    else none
  | buffer, f :: rest =>
    if count ≤ buffer.length then some (buffer.take count, buffer.drop count, f :: rest)
    else if f = [] then none
    else ws_recv_exact count (buffer ++ f) rest

/-! ## Clipboard controller (`core/clipboard.py`,
`core/connection_tcp.py` lines 271-311) -/

/-- `TCPVNCConnection.receive_clipboard_text` over the incoming byte
stream: read one message-type byte; any type other than 3 (ServerCutText)
returns `None` with that byte consumed; otherwise skip the padding byte,
read a big-endian `u32` length and that many latin-1 bytes.  A short read
raises inside the `try` block and is caught, returning `None`; the bytes
read up to that point are gone from the stream. -/
def receive_clipboard_text (stream : List Nat) : Option String × List Nat :=
  match stream with
  | [] => (none, [])
  | t :: rest =>
    if t ≠ 3 then (none, rest)
    else
      match rest with
      | _pad :: l1 :: l2 :: l3 :: l4 :: rest2 =>
        let len := ((l1 * 256 + l2) * 256 + l3) * 256 + l4
        if rest2.length < len then (none, [])
        else (some (String.mk ((rest2.take len).map Char.ofNat)), rest2.drop len)
      | _ => (none, [])

/-- `ClipboardController.get_text` (`core/clipboard.py` lines 72-95): a
negative timeout raises `VNCInputError`; otherwise
`receive_clipboard_text()` is called with no arguments — the timeout value
is never passed on or consulted again.  The result pairs the returned text
with the stream bytes left unconsumed. -/
def clipboard_get_text (timeout : ℚ) (stream : List Nat) :
    Except PyError (Option String × List Nat) :=
  if timeout < 0 then .error .inputError
  else .ok (receive_clipboard_text stream)

/-! ## Sample data used by witnesses -/

/-- A sample 16-byte challenge, `0x00 .. 0x0F` (spec §8 scenario 2). -/
def sample_challenge : List Nat := [0, 1, 2, 3, 4, 5, 6, 7, 8, 9, 10, 11, 12, 13, 14, 15]

/-- A sample video frame at timestamp 0. -/
def frame_a : VideoFrame := { timestamp := 0, data := [], frame_number := 0 }

/-- A sample video frame at timestamp 2. -/
def frame_b : VideoFrame := { timestamp := 2, data := [], frame_number := 1 }

/-! ## Claims -/

/-- C1: the spec says `scroll_up`/`scroll_down` emit pointer events with the
wheel button bits (buttons 4 and 5) asserted.  The code instead passes
`ScrollDirection.value` — `0` for up and `1` for down — as the button mask,
so `scroll_up` emits a no-button event and `scroll_down` emits a
left-button event, at position (0, 0); no wheel bit is ever set.  The
scroll module's own comments ("VNC scroll buttons: 3=down, 4=up",
"ScrollDirection.UP=4, ScrollDirection.DOWN=3") contradict the enum, so
this is a bug in the code.  The negative-amount and zero-amount parts of
the claim do hold. -/
theorem c1_scroll_wheel_bits_bug :
    scroll_up true 1 = .ok [{ mask := 0, x := 0, y := 0 }] ∧
    scroll_down true 1 = .ok [{ mask := 1, x := 0, y := 0 }] ∧
    (send_scroll_event .up).mask.testBit 3 = false ∧
    (send_scroll_event .up).mask.testBit 4 = false ∧
    (send_scroll_event .down).mask.testBit 3 = false ∧
    (send_scroll_event .down).mask.testBit 4 = false ∧
    scroll_up true (-1) = .error .inputError ∧
    scroll_up true 0 = .ok [] ∧
    scroll_down true (-1) = .error .inputError ∧
    scroll_down true 0 = .ok [] := by
  decide

/-- C2: the spec says the framebuffer dimensions equal the width and height
read from ServerInit.  The TCP handshake parses those two `u16` fields and
discards them, and `VNCAgentBridge.connect` builds the `FramebufferConfig`
with hardcoded `width=1920, height=1080` (its comment says "will be updated
by VNC server", but nothing updates it).  For a ServerInit advertising
800×600 the allocated framebuffer is 1920×1080. -/
theorem c2_framebuffer_dims_bug :
    parse_server_init_dims [0x03, 0x20, 0x02, 0x58] = some (800, 600) ∧
    bridge_connect_fb_config.width = 1920 ∧
    bridge_connect_fb_config.height = 1080 ∧
    bridge_connect_fb_config.width ≠ 800 ∧
    bridge_connect_fb_config.height ≠ 600 := by
  decide

/-- C3 counterexample: the key the code derives from "pass" is not the
`0x16 0x86 0xC6 0xE6 0x00 0x00 0x00 0x00` the claim states (that value is
even internally inconsistent — the two 's' bytes would have to reverse to
the same byte). -/
theorem c3_key_counterexample :
    vnc_des_key pass_bytes ≠ [0x16, 0x86, 0xC6, 0xE6, 0, 0, 0, 0] := by
  decide

/-- C3 amended: the derivation (latin-1, truncate to 8, bit-reverse each
byte, zero-pad to 8) applied to "pass" yields
`0x0E 0x86 0xCE 0xCE 0x00 0x00 0x00 0x00`, and with a DES-ECB primitive
available the 16-byte response is the two 8-byte challenge halves each
encrypted with that key, concatenated. -/
theorem c3_key_derivation_amended :
    vnc_des_key pass_bytes = [0x0E, 0x86, 0xCE, 0xCE, 0, 0, 0, 0] ∧
    ∀ (encrypt : DESPrimitive) (challenge : List Nat),
      tcp_vnc_auth_response (some encrypt) none none challenge pass_bytes =
        .ok (encrypt (vnc_des_key pass_bytes) (challenge.take 8) ++
             encrypt (vnc_des_key pass_bytes) ((challenge.drop 8).take 8)) := by
  exact ⟨by decide, fun _ _ => rfl⟩

/-- C4 counterexample: with no DES primitive available the WebSocket
variant does not raise — it computes a response with the XOR fallback and
returns it.  Evaluated at the sample challenge and password "pass". -/
theorem c4_ws_xor_fallback_counterexample :
    ws_vnc_auth_response none none sample_challenge pass_bytes =
      .ok [14, 135, 204, 205, 4, 5, 6, 7, 6, 143, 196, 197, 12, 13, 14, 15] := by
  decide

/-- C4 amended: only the TCP variant fails closed when no DES-ECB primitive
is available (`VNCProtocolError`, "DES encryption not available"); the
WebSocket variant falls back to the per-byte XOR `des_encrypt_block` and
sends that response instead of raising. -/
theorem c4_des_availability_amended :
    (∀ challenge password_bytes,
      tcp_vnc_auth_response none none none challenge password_bytes =
        .error .protocolError) ∧
    (∀ challenge password_bytes,
      ws_vnc_auth_response none none challenge password_bytes =
        .ok (des_encrypt_block (challenge.take 8) (vnc_des_key password_bytes) ++
             des_encrypt_block ((challenge.drop 8).take 8) (vnc_des_key password_bytes))) := by
  exact ⟨fun _ _ => rfl, fun _ _ => rfl⟩

/-- C5 counterexample: `type_text` on the one-character string "€"
(U+20AC, above U+00FF) raises no input error — `_get_keycode` maps any
single character to `ord(char)`, so a key-down/key-up pair with keysym
0x20AC is sent. -/
theorem c5_unicode_counterexample :
    type_text true (String.mk [Char.ofNat 0x20AC]) =
      .ok [{ keysym := 0x20AC, down := true }, { keysym := 0x20AC, down := false }] := by
  decide

/-- Helper: the `type_text` character loop never fails — every single
character resolves to `ord(char)` — and emits a down/up pair per
character. -/
theorem type_text_loop_ok (cs : List Char) :
    type_text_loop cs =
      .ok (cs.flatMap fun c =>
        [{ keysym := c.toNat, down := true }, { keysym := c.toNat, down := false }]) := by
  induction cs with
  | nil => rfl
  | cons c rest ih =>
    simp only [type_text_loop, get_keycode, ih]
    rfl

/-- C5 amended: `type_text` on any non-empty text raises no input error;
every character — latin-1 or not, including code points above U+00FF —
is transmitted as a key-down/key-up pair whose keysym equals the
character's code point (`_get_keycode` maps a one-character string to
`ord(key)` unconditionally). -/
theorem c5_type_text_amended (cs : List Char) (h : cs ≠ []) :
    type_text true (String.mk cs) =
      .ok (cs.flatMap fun c =>
        [{ keysym := c.toNat, down := true }, { keysym := c.toNat, down := false }]) := by
  simp only [type_text, String.toList]
  rw [if_neg (by decide), if_neg (by simpa using h)]
  exact type_text_loop_ok cs

/-- C5 witness: typing "a€" sends the keysym pairs 0x61 and 0x20AC. -/
theorem c5_witness :
    type_text true (String.mk [Char.ofNat 0x61, Char.ofNat 0x20AC]) =
      .ok [{ keysym := 0x61, down := true }, { keysym := 0x61, down := false },
           { keysym := 0x20AC, down := true }, { keysym := 0x20AC, down := false }] := by
  simpa using c5_type_text_amended [Char.ofNat 0x61, Char.ofNat 0x20AC] (by decide)

/-- C6 counterexample: on a fresh 4×4 framebuffer a direct successful
`update_rectangle` leaves the dirty flag `False` (the claim says any
successful rectangle application sets it), while `process_update` with an
empty rectangle list sets it `True` (the claim says it stays `False` when
no rectangle has been applied). -/
theorem c6_dirty_counterexample :
    (update_rectangle (init_buffer 4 4) 0 0 1 1 [9, 9, 9, 9]).map (·.dirty) = .ok false ∧
    (process_update (init_buffer 4 4) []).map (·.dirty) = .ok true := by
  decide

/-- C6 amended: the dirty flag is set by `process_update` (after the loop,
even for an empty rectangle list); `update_rectangle` on its own never
changes the flag; reading `is_dirty` returns the current value and resets
it, so an immediate second read returns `False`. -/
theorem c6_dirty_flag_amended :
    (∀ st rects st', process_update st rects = .ok st' → st'.dirty = true) ∧
    (∀ st x y w h pd st', update_rectangle st x y w h pd = .ok st' → st'.dirty = st.dirty) ∧
    (∀ st, (read_is_dirty st).1 = st.dirty ∧ (read_is_dirty (read_is_dirty st).2).1 = false) := by
  refine ⟨?_, ?_, fun st => ⟨rfl, rfl⟩⟩
  · intro st rects
    induction rects generalizing st with
    | nil =>
      intro st' h
      simp only [process_update] at h
      split at h
      · cases h
      · cases h; rfl
    | cons r rest ih =>
      intro st' h
      obtain ⟨x, y, w, hh, pd⟩ := r
      simp only [process_update] at h
      split at h
      · cases h
      · split at h
        · cases h
        · exact ih _ _ h
  · intro st x y w h pd st' hok
    simp only [update_rectangle] at hok
    split at hok
    · cases hok
    · split at hok
      · cases hok
      · split at hok
        · cases hok; rfl
        · cases hok

/-- C6 witness: `process_update` with no rectangles on a fresh 2×2 buffer
yields a state whose dirty flag is `True`. -/
theorem c6_witness :
    ({ init_buffer 2 2 with dirty := true } : FBState).dirty = true :=
  c6_dirty_flag_amended.1 (init_buffer 2 2) [] { init_buffer 2 2 with dirty := true }
    (by decide)

/-- C7 counterexample: `get_frame_rate` on the empty list raises
`VNCInputError` ("Cannot calculate FPS from empty frame list") instead of
returning 0.0 as the claim states. -/
theorem c7_empty_frames_counterexample :
    get_frame_rate [] = .error .inputError := by
  decide

/-- C7 amended: `get_frame_rate` raises an input error on the empty list,
returns 0.0 for a single frame or when the timestamp span is not positive,
and otherwise returns `count / (last.timestamp - first.timestamp)`;
`get_duration` raises an input error on the empty list and returns
`last.timestamp - first.timestamp` for at least one frame. -/
theorem c7_frame_stats_amended :
    (get_frame_rate [] = .error .inputError) ∧
    (∀ f, get_frame_rate [f] = .ok 0) ∧
    (∀ f g rest, ((f :: g :: rest).getLastD f).timestamp - f.timestamp ≤ 0 →
      get_frame_rate (f :: g :: rest) = .ok 0) ∧
    (∀ f g rest, 0 < ((f :: g :: rest).getLastD f).timestamp - f.timestamp →
      get_frame_rate (f :: g :: rest) =
        .ok ((f :: g :: rest).length /
             (((f :: g :: rest).getLastD f).timestamp - f.timestamp))) ∧
    (get_duration [] = .error .inputError) ∧
    (∀ f rest, get_duration (f :: rest) =
      .ok (((f :: rest).getLastD f).timestamp - f.timestamp)) := by
  refine ⟨rfl, fun f => rfl, ?_, ?_, rfl, ?_⟩
  · intro f g rest h
    simp only [List.getLastD_cons] at h
    simp only [get_frame_rate, List.getLastD_cons]
    rw [if_pos h]
  · intro f g rest h
    simp only [List.getLastD_cons] at h
    simp only [get_frame_rate, List.getLastD_cons]
    rw [if_neg (not_le.mpr h)]
  · intro f rest
    simp only [get_duration, List.getLastD_cons]

/-- C7 witness: two frames at timestamps 0 and 2 give frame rate
`2 / (2 - 0) = 1`. -/
theorem c7_witness :
    get_frame_rate [frame_a, frame_b] =
      .ok (([frame_a, frame_b] : List VideoFrame).length /
           ((([frame_a, frame_b] : List VideoFrame).getLastD frame_a).timestamp -
            frame_a.timestamp)) :=
  c7_frame_stats_amended.2.2.2.1 frame_a frame_b []
    (by simp only [List.getLastD_cons, List.getLastD_nil, frame_a, frame_b]; norm_num)

/-- Helper for C8: whenever the buffered receive succeeds, some prefix of
`k` whole frames was pulled into the buffer, the result is the first `n`
bytes of the enlarged buffer, and the rest of the enlarged buffer stays
buffered. -/
theorem ws_recv_exact_sound (n : Nat) :
    ∀ (frames : List (List Nat)) (buf res buf' : List Nat) (frames' : List (List Nat)),
      ws_recv_exact n buf frames = some (res, buf', frames') →
      ∃ k, k ≤ frames.length ∧ frames' = frames.drop k ∧
        n ≤ (buf ++ (frames.take k).flatten).length ∧
        res = (buf ++ (frames.take k).flatten).take n ∧
        buf' = (buf ++ (frames.take k).flatten).drop n := by
  intro frames
  induction frames with
  | nil =>
    intro buf res buf' frames' h
    simp only [ws_recv_exact] at h
    split at h
    next hle =>
      simp only [Option.some.injEq, Prod.mk.injEq] at h
      obtain ⟨rfl, rfl, rfl⟩ := h
      exact ⟨0, by simp, by simp, by simpa using hle, by simp, by simp⟩
    next => cases h
  | cons f rest ih =>
    intro buf res buf' frames' h
    simp only [ws_recv_exact] at h
    split at h
    next hle =>
      simp only [Option.some.injEq, Prod.mk.injEq] at h
      obtain ⟨rfl, rfl, rfl⟩ := h
      exact ⟨0, by simp, by simp, by simpa using hle, by simp, by simp⟩
    next =>
      split at h
      next => cases h
      next =>
        obtain ⟨k, hk, hfr, hn, hres, hbuf⟩ := ih (buf ++ f) res buf' frames' h
        refine ⟨k + 1, by simpa using hk, by simpa using hfr, ?_, ?_, ?_⟩
        · simpa [List.append_assoc] using hn
        · simpa [List.append_assoc] using hres
        · simpa [List.append_assoc] using hbuf

/-- Helper for C8: when the frames still to arrive hold exactly the bytes
missing from the buffer and none of them is empty, the loop pulls all of
them and the final buffer is exactly `n` bytes, leaving nothing behind. -/
theorem ws_recv_exact_all (frames : List (List Nat)) :
    ∀ (buf : List Nat) (n : Nat),
      buf.length + (frames.map List.length).sum = n →
      (∀ f ∈ frames, f ≠ []) →
      ws_recv_exact n buf frames = some (buf ++ frames.flatten, [], []) := by
  induction frames with
  | nil =>
    intro buf n hlen _
    have hn : n = buf.length := by simpa using hlen.symm
    subst hn
    simp [ws_recv_exact]
  | cons f rest ih =>
    intro buf n hlen hne
    have hf : f ≠ [] := hne f (by simp)
    have hflen : 0 < f.length := List.length_pos.mpr hf
    have hsum : buf.length + (f.length + (rest.map List.length).sum) = n := by
      simpa using hlen
    simp only [ws_recv_exact]
    rw [if_neg (by omega), if_neg hf]
    have hrec := ih (buf ++ f) n (by simp; omega) (fun g hg => hne g (by simp [hg]))
    rw [hrec]
    simp

/-- C8: on every successful `_recv_exact(n)` the WebSocket transport
returns exactly the first `n` bytes of the concatenation of the receive
buffer and the whole frames it pulled, and leaves exactly the remaining
bytes buffered; and when the arriving frames hold exactly `n` bytes
(starting from an empty buffer), the result is their concatenation and the
buffer is empty afterward. -/
theorem c8_ws_recv_exact_correct :
    (∀ (n : Nat) (buf : List Nat) (frames : List (List Nat)) res buf' frames',
      ws_recv_exact n buf frames = some (res, buf', frames') →
      res.length = n ∧
      res = (buf ++ (frames.take (frames.length - frames'.length)).flatten).take n ∧
      buf' = (buf ++ (frames.take (frames.length - frames'.length)).flatten).drop n ∧
      frames' = frames.drop (frames.length - frames'.length)) ∧
    (∀ (n : Nat) (frames : List (List Nat)),
      (frames.map List.length).sum = n → (∀ f ∈ frames, f ≠ []) →
      ws_recv_exact n [] frames = some (frames.flatten, [], [])) := by
  constructor
  · intro n buf frames res buf' frames' h
    obtain ⟨k, hk, hfr, hn, hres, hbuf⟩ := ws_recv_exact_sound n frames buf res buf' frames' h
    have hlen : frames'.length = frames.length - k := by rw [hfr]; simp
    have hkk : frames.length - frames'.length = k := by omega
    rw [hkk]
    refine ⟨?_, hres, hbuf, hfr⟩
    rw [hres]
    simpa using hn
  · intro n frames hsum hne
    simpa using ws_recv_exact_all frames [] n (by simpa using hsum) hne

/-- C8 witness: two frames of two bytes each satisfy a four-byte read from
an empty buffer, returning all four bytes and leaving the buffer empty. -/
theorem c8_witness :
    ws_recv_exact 4 [] [[1, 2], [3, 4]] =
      some (([[1, 2], [3, 4]] : List (List Nat)).flatten, [], []) :=
  c8_ws_recv_exact_correct.2 4 [[1, 2], [3, 4]] (by decide) (by decide)

/-- C9 counterexample: the worker thread `start_recording` creates is
constructed with `daemon=False` (`core/video.py` line 228), so it is not a
daemon thread as the claim states. -/
theorem c9_daemon_counterexample :
    (start_recording recorder_init 30 true).map (fun st => st.thread) =
      .ok (some { daemon := false }) := by
  decide

/-- C9 amended: the background worker is a non-daemon thread
(`daemon=False`), and `stop_recording` joins it with the bounded timeout
10.0 seconds before returning the captured frames. -/
theorem c9_recording_thread_amended :
    (∀ (st : RecorderState) (fps : ℚ), st.is_recording = false → 0 < fps →
      start_recording st fps true =
        .ok { st with frames := [], frame_count := 0, should_stop := false,
                      is_recording := true, thread := some { daemon := false } }) ∧
    (∀ (st : RecorderState) (t : ThreadSpec), st.is_recording = true → st.thread = some t →
      stop_recording st =
        .ok ({ st with should_stop := true, is_recording := false }, st.frames, some 10)) := by
  constructor
  · intro st fps h1 h2
    simp only [start_recording]
    rw [if_neg (by simp [h1]), if_neg (not_le.mpr h2), if_neg (by simp)]
  · intro st t h1 h2
    simp only [stop_recording]
    rw [if_neg (by simp [h1]), if_pos (by simp [h2])]

/-- C9 witness: starting on a fresh recorder with fps 30 creates the
non-daemon worker thread. -/
theorem c9_witness :
    start_recording recorder_init 30 true =
      .ok { recorder_init with frames := [], frame_count := 0, should_stop := false,
                               is_recording := true, thread := some { daemon := false } } :=
  c9_recording_thread_amended.1 recorder_init 30 rfl (by norm_num)

/-- C10: for any two non-negative timeouts and the same incoming bytes,
`ClipboardController.get_text` consumes the same bytes and returns the same
result — the timeout is only checked for negativity and is never passed to
the transport layer. -/
theorem c10_get_text_timeout_independent (t1 t2 : ℚ) (stream : List Nat)
    (h1 : 0 ≤ t1) (h2 : 0 ≤ t2) :
    clipboard_get_text t1 stream = clipboard_get_text t2 stream := by
  unfold clipboard_get_text
  rw [if_neg (not_lt.mpr h1), if_neg (not_lt.mpr h2)]

/-- C10 witness: timeouts 0 and 5 give identical results on a concrete
ServerCutText message carrying one byte. -/
theorem c10_witness :
    clipboard_get_text 0 [3, 0, 0, 0, 0, 1, 65] =
      clipboard_get_text 5 [3, 0, 0, 0, 0, 1, 65] :=
  c10_get_text_timeout_independent 0 5 [3, 0, 0, 0, 0, 1, 65] (by norm_num) (by norm_num)

end VNCBridge
